import Mathlib

/-!
Verification development for the BlueBOLT protocol client
(`custom_components/bluebolt/device.py` and `const.py`).

The client talks XML over UDP to a CV2 bridge card.  We shallowly embed:
  * the XML element tree (ElementTree-style: tag, attributes, text, children),
  * Python `int(...)` / `float(...)` string conversion (as `Option Int` /
    `Option Rat`; a conversion failure models a raised `ValueError`),
  * the `BlueBoltDevice` session object and its operations `connect`,
    `get_device_info`, `get_status`, `set_outlet`.

The transport plus `ET.fromstring` is modelled by an oracle
`String → Option (Option XML)`: outer `none` is a transport failure
(timeout / socket error, `_send_command` returning `None`), `some none` is a
response that raises `ET.ParseError`, and `some (some root)` is a parsed
document root.  A Python function that returns the empty dict `{}` on
failure is modelled as an `Option` result with `none` for `{}`.
-/

/-- An ElementTree element: tag, attribute list (first binding wins on
lookup, matching a Python dict with distinct keys), the `.text` field
(`none` models Python `None`), and the child elements in document order. -/
inductive XML : Type where
  | elem : String → List (String × String) → Option String → List XML → XML

def XML.tag : XML → String
  | .elem t _ _ _ => t

def XML.attrs : XML → List (String × String)
  | .elem _ a _ _ => a

def XML.text : XML → Option String
  | .elem _ _ t _ => t

def XML.children : XML → List XML
  | .elem _ _ _ k => k

/-- Attribute lookup `elem.get(name)`; `None` when absent. -/
def XML.getAttr (e : XML) (name : String) : Option String :=
  (e.attrs.lookup name)

/-- Attribute lookup with a default, `elem.get(name, default)`. -/
def XML.getAttrD (e : XML) (name : String) (d : String) : String :=
  (e.getAttr name).getD d

mutual

/-- All proper descendants of an element in document (preorder) order;
this is what the ElementTree path `.//` ranges over (it never yields the
element itself). -/
def XML.descendants : XML → List XML
  | .elem _ _ _ kids => XML.descList kids

def XML.descList : List XML → List XML
  | [] => []
  | x :: xs => x :: (XML.descendants x ++ XML.descList xs)

end

/-- Model of `root.findall(".//tag")`: every proper descendant with the given tag,
in document order. -/
def XML.findallDesc (root : XML) (tag : String) : List XML :=
  (XML.descendants root).filter (fun e => e.tag = tag)

/-- Model of `root.find(".//tag")`: the first proper descendant with the given tag. -/
def XML.findDesc (root : XML) (tag : String) : Option XML :=
  (XML.descendants root).find? (fun e => e.tag = tag)

/-- Model of `elem.find("tag")`: the first direct child with the given tag. -/
def XML.findChild (e : XML) (tag : String) : Option XML :=
  e.children.find? (fun c => c.tag = tag)

/-- ElementTree `findtext`: the text of the matched element, where a
matched element whose `.text` is `None` yields `""`. -/
def XML.textOrEmpty (e : XML) : String :=
  e.text.getD ""

/-- Model of `root.findtext(".//tag", default)`. -/
def XML.findtextD (root : XML) (tag : String) (d : String) : String :=
  match root.findDesc tag with
  | some e => e.textOrEmpty
  | none => d

/-- Python truthiness of an `Optional[str]`: `None` and `""` are falsy. -/
def pyFalsy : Option String → Bool
  | none => true
  | some s => s = ""

/-- Interpolating an `Optional[str]` into an f-string: `None` prints as
`"None"`. -/
def optStr : Option String → String
  | none => "None"
  | some s => s

/-- Numeric value of a digit list (most significant first). -/
def digitsVal (l : List Char) : Nat :=
  l.foldl (fun acc c => 10 * acc + (c.toNat - '0'.toNat)) 0

/-- Python `int(s)` on a string, modelled for optional surrounding
whitespace, an optional sign, and a nonempty run of decimal digits;
`none` models a raised `ValueError`. -/
def pyInt (s : String) : Option Int :=
  let l := ((s.data.dropWhile Char.isWhitespace).reverse.dropWhile Char.isWhitespace).reverse
  match l with
  | '+' :: rest =>
      if rest ≠ [] ∧ rest.all Char.isDigit then some (Int.ofNat (digitsVal rest)) else none
  | '-' :: rest =>
      if rest ≠ [] ∧ rest.all Char.isDigit then some (-(Int.ofNat (digitsVal rest))) else none
  | rest =>
      if rest ≠ [] ∧ rest.all Char.isDigit then some (Int.ofNat (digitsVal rest)) else none

/-- Exponent suffix of a float literal: the whole remaining input must be
an optional sign followed by a nonempty digit run. -/
def parseExpSuffix (l : List Char) : Option Int :=
  match l with
  | '+' :: rest => if rest ≠ [] ∧ rest.all Char.isDigit then some (Int.ofNat (digitsVal rest)) else none
  | '-' :: rest => if rest ≠ [] ∧ rest.all Char.isDigit then some (-(Int.ofNat (digitsVal rest))) else none
  | rest => if rest ≠ [] ∧ rest.all Char.isDigit then some (Int.ofNat (digitsVal rest)) else none

/-- Unsigned float literal `digits [. digits] [exp]` or `. digits [exp]`
split into integer digits, fraction digits and exponent; at least one
digit must appear in the mantissa. -/
def parseMantExp (l : List Char) : Option (List Char × List Char × Int) :=
  let ip := l.takeWhile Char.isDigit
  let r1 := l.dropWhile Char.isDigit
  match r1 with
  | [] => if ip ≠ [] then some (ip, [], 0) else none
  | '.' :: r2 =>
      let fp := r2.takeWhile Char.isDigit
      let r3 := r2.dropWhile Char.isDigit
      if ip = [] ∧ fp = [] then none
      else
        match r3 with
        | [] => some (ip, fp, 0)
        | 'e' :: r4 => (parseExpSuffix r4).map (fun e => (ip, fp, e))
        | 'E' :: r4 => (parseExpSuffix r4).map (fun e => (ip, fp, e))
        | _ => none
  | 'e' :: r2 =>
      if ip ≠ [] then (parseExpSuffix r2).map (fun e => (ip, [], e)) else none
  | 'E' :: r2 =>
      if ip ≠ [] then (parseExpSuffix r2).map (fun e => (ip, [], e)) else none
  | _ => none

/-- The rational value of a parsed decimal literal: sign, integer digits,
fraction digits, decimal exponent.  Built as a single `Rat.divInt` of
integers so that the kernel can evaluate it. -/
def decimalVal (sign : Bool) (ip fp : List Char) (e : Int) : ℚ :=
  let m : Int := Int.ofNat (digitsVal (ip ++ fp))
  let m : Int := if sign then -m else m
  let e2 : Int := e - Int.ofNat fp.length
  if 0 ≤ e2 then Rat.divInt (m * Int.ofNat (10 ^ e2.toNat)) 1
  else Rat.divInt m (Int.ofNat (10 ^ (-e2).toNat))

/-- Python `float(s)`, modelled for finite decimal literals (optional
surrounding whitespace, optional sign, decimal mantissa, optional
exponent); `none` models a raised `ValueError`. -/
def pyFloat (s : String) : Option ℚ :=
  let l := ((s.data.dropWhile Char.isWhitespace).reverse.dropWhile Char.isWhitespace).reverse
  match l with
  | '+' :: rest => (parseMantExp rest).map (fun p => decimalVal false p.1 p.2.1 p.2.2)
  | '-' :: rest => (parseMantExp rest).map (fun p => decimalVal true p.1 p.2.1 p.2.2)
  | rest => (parseMantExp rest).map (fun p => decimalVal false p.1 p.2.1 p.2.2)

example : pyFloat "120.5" = some (Rat.divInt 241 2) := by decide
example : pyFloat "0" = some 0 := by decide
example : pyFloat "" = none := by decide
example : pyFloat "abc" = none := by decide
example : pyFloat "1e2" = some 100 := by decide
example : pyInt " 42 " = some 42 := by decide
example : pyInt "2.5" = none := by decide
example : pyInt "-3" = some (-3) := by decide

/-! ## Static configuration (`const.py`) -/

/-- The `DEVICE_CLASS_MAP` table from `const.py`: discovery class tag to device
type name. -/
def DEVICE_CLASS_MAP : List (String × String) :=
  [("km4315", "M4315-PRO"),
   ("km4320", "M4320-PRO"),
   ("kmb1500", "MB1500"),
   ("kf1500", "F1500-UPS")]

/-- One entry of `DEVICE_CONFIG`; `outlets` / `outlet_banks` are optional
because each Python dict entry carries exactly one of the two keys. -/
structure DeviceConfig where
  model : String
  manufacturer : String
  outlets : Option Int
  outlet_banks : Option Int
  has_temperature_sensor : Bool
  has_ups_sensors : Bool
deriving DecidableEq

/-- The `DEVICE_CONFIG` table from `const.py`, keyed by device type name. -/
def DEVICE_CONFIG : List (String × DeviceConfig) :=
  [("M4315-PRO", ⟨"M4315-PRO", "Panamax", some 8, none, true, false⟩),
   ("M4320-PRO", ⟨"M4320-PRO", "Panamax", some 8, none, true, false⟩),
   ("MB1500", ⟨"MB1500", "Panamax", none, some 4, false, true⟩),
   ("F1500-UPS", ⟨"F1500-UPS", "Furman", none, some 4, false, true⟩)]

/-- The empty Python dict `{}` used as the `DEVICE_CONFIG.get` default:
no key is present. -/
def emptyConfig : DeviceConfig := ⟨"", "", none, none, false, false⟩

/-- Model of `DEVICE_CONFIG.get(self.device_type, {})`: a `None` device type is
not a key, so it also yields the empty dict. -/
def configFor (device_type : Option String) : DeviceConfig :=
  match device_type with
  | none => emptyConfig
  | some t => (DEVICE_CONFIG.lookup t).getD emptyConfig

/-- Model of `device_config.get("outlets") or device_config.get("outlet_banks", 8)`
with Python truthiness: a missing (`None`) or zero `outlets` value falls
through to the `outlet_banks` lookup, whose own default is `8`. -/
def maxOutletsOf (cfg : DeviceConfig) : Int :=
  match cfg.outlets with
  | some n => if n = 0 then cfg.outlet_banks.getD 8 else n
  | none => cfg.outlet_banks.getD 8

/-! ## The device session (`device.py`) -/

/-- The mutable state of a `BlueBoltDevice` instance.  The transport
configuration (`host`, `port`, `timeout`) plays no role in the decode
logic and is carried only for completeness. -/
structure Device where
  host : String
  mac : String
  port : Int
  timeout : Int
  cv2_id : String
  device_class : Option String
  device_id : Option String
  device_type : Option String
  firmware_version : Option String
deriving DecidableEq

/-- Python `str.lower()` on ASCII identifiers (character-wise). -/
def pyLower (s : String) : String :=
  ⟨s.data.map Char.toLower⟩

/-- Constructor `BlueBoltDevice.__init__`: the MAC is lowercased once and doubles as
the CV2 bridge identifier; identity fields start unset. -/
def mkDevice (host mac : String) (port timeout : Int) : Device :=
  ⟨host, pyLower mac, port, timeout, pyLower mac, none, none, none, none⟩

/-- Framing done by `_send_command` (lines 57-60): the f-string wrapping the
inner message in a `device` element with `class` and `id` attributes. -/
def xml_command (device_class device_id message : String) : String :=
  "<?xml version=\"1.0\" ?>" ++
    ("<device class=\"" ++ device_class ++ "\" id=\"" ++ device_id ++ "\">" ++ message ++ "</device>")

/-- A transport-plus-parse oracle standing for `_send_command` followed by
`ET.fromstring`: it receives the framed command string; `none` is a
transport failure (`_send_command` returned `None`), `some none` a
response on which `ET.fromstring` raises `ParseError`, and
`some (some root)` a parsed document root. -/
def Transport : Type := String → Option (Option XML)

/-- The discovery scan of `connect` (lines 116-131): walk the
`.//kids` matches in document order; adopt the first whose `class`
attribute is a `DEVICE_CLASS_MAP` key and whose first direct `k` child
exists and has truthy (non-`None`, nonempty) text.  Returns the adopted
`(device_class, device_id, device_type)`. -/
def connectScan : List XML → Option (String × String × String)
  | [] => none
  | e :: rest =>
      match e.getAttr "class" with
      | some c =>
          match DEVICE_CLASS_MAP.lookup c with
          | some ty =>
              match e.findChild "k" with
              | some kElem =>
                  match kElem.text with
                  | some t => if t ≠ "" then some (c, t, ty) else connectScan rest
                  | none => connectScan rest
              | none => connectScan rest
          | none => connectScan rest
      | none => connectScan rest

/-- The framed discovery request sent by `connect` (line 106-108). -/
def connectRequest (dev : Device) : String :=
  xml_command "cv2" dev.cv2_id "<command><sendfamily/></command>"

/-- Operation `connect` (lines 100-137): on a parsed response, adopt the first
matching sub-device; on transport failure, parse failure or no match,
return `False` leaving the identity fields untouched. -/
def connect (dev : Device) (tr : Transport) : Device × Bool :=
  match tr (connectRequest dev) with
  | none => (dev, false)
  | some none => (dev, false)
  | some (some root) =>
      match connectScan (root.findallDesc "kids") with
      | some cit =>
          ({ dev with
              device_class := some cit.1
              device_id := some cit.2.1
              device_type := some cit.2.2 }, true)
      | none => (dev, false)

/-- The framed info request of `get_device_info` (lines 149-151); `none`
when the `not self.device_id` precondition check fails first. -/
def getDeviceInfoRequest (dev : Device) : Option String :=
  if pyFalsy dev.device_id then none
  else some (xml_command (optStr dev.device_class) (optStr dev.device_id)
    "<command><sendinfo/></command>")

/-- Operation `get_device_info` (lines 139-165): returns the updated session and
the decoded info dict, modelled as `some firmware` for
`{"firmware": ...}` and `none` for the empty dict `{}`. -/
def get_device_info (dev : Device) (tr : Transport) : Device × Option String :=
  match getDeviceInfoRequest dev with
  | none => (dev, none)
  | some req =>
      match tr req with
      | none => (dev, none)
      | some none => (dev, none)
      | some (some root) =>
          let fw := root.findtextD "fwver" "Unknown"
          ({ dev with firmware_version := some fw }, some fw)

example :
    connect (mkDevice "h" "AB" 57010 5)
      (fun _ => some (some (XML.elem "device" [] none
        [XML.elem "kids" [("class", "km4315")] none [XML.elem "k" [] (some "42") []]]))) =
    ({ mkDevice "h" "AB" 57010 5 with
        device_class := some "km4315", device_id := some "42",
        device_type := some "M4315-PRO" }, true) := by
  decide

/-! ## Status decoding (`get_status`, lines 167-218) -/

/-- The decoded status dict of a successful `get_status` call.  The six
base numeric fields are always present in the Python dict, hence plain
fields here; the four UPS fields are present only when their source
element is (hence `Option`); `outlets` is the nested outlet-state dict,
kept as an association list in insertion order. -/
structure Status where
  voltage : ℚ
  current : ℚ
  power : ℚ
  apparent_power : ℚ
  power_factor : ℚ
  temperature : ℚ
  voltage_out : Option ℚ
  battery_level : Option ℚ
  load_level : Option ℚ
  power_condition : Option Int
  outlets : List (Int × Bool)
deriving DecidableEq

/-- Python dict assignment `d[k] = v`: overwrite in place when the key
exists (keeping its position), else append. -/
def dictInsert (d : List (Int × Bool)) (k : Int) (v : Bool) : List (Int × Bool) :=
  if d.any (fun p => p.1 = k) then d.map (fun p => if p.1 = k then (k, v) else p)
  else d ++ [(k, v)]

/-- Dict lookup on the outlet-state association list. -/
def dictLookup : List (Int × Bool) → Int → Option Bool
  | [], _ => none
  | (a, b) :: t, k => if a = k then some b else dictLookup t k

/-- The outlet loop of `get_status` (lines 207-212):
`int(outlet_elem.get("id", "0"))` (a `ValueError` aborting the whole
call is `none`), keep ids `> 0`, value `outlet_elem.text == "1"`. -/
def decodeOutlets : List XML → List (Int × Bool) → Option (List (Int × Bool))
  | [], acc => some acc
  | e :: rest, acc =>
      (pyInt (e.getAttrD "id" "0")).bind (fun i =>
        if 0 < i then decodeOutlets rest (dictInsert acc i (e.text = some "1"))
        else decodeOutlets rest acc)

/-- One optional UPS float field (lines 198-203): read only when
`root.find(".//tag")` hits, via `float(root.findtext(".//tag", "0"))`;
the outer `none` is a `ValueError` aborting the whole call, `some none`
is "element absent, key omitted". -/
def optFloatField (root : XML) (tag : String) : Option (Option ℚ) :=
  match root.findDesc tag with
  | none => some none
  | some _ => (pyFloat (root.findtextD tag "0")).map some

/-- The optional `pwrcond` int field (lines 204-205). -/
def optIntField (root : XML) (tag : String) : Option (Option Int) :=
  match root.findDesc tag with
  | none => some none
  | some _ => (pyInt (root.findtextD tag "0")).map some

/-- The decode half of `get_status` (lines 182-218) applied to the
transport-and-parse outcome: transport failure and `ParseError` give the
empty dict, as does any `ValueError` raised while converting a field;
otherwise all fields are assembled into the status dict. -/
def getStatusDecode (resp : Option (Option XML)) : Option Status :=
  match resp with
  | none => none
  | some none => none
  | some (some root) =>
      match pyFloat (root.findtextD "voltage" "0"),
            pyFloat (root.findtextD "amperage" "0"),
            pyFloat (root.findtextD "wattage" "0"),
            pyFloat (root.findtextD "pwrva" "0"),
            pyFloat (root.findtextD "pwrfact" "0"),
            pyFloat (root.findtextD "temperature" "0"),
            optFloatField root "voltageout",
            optFloatField root "battlevel",
            optFloatField root "loadlevel",
            optIntField root "pwrcond",
            decodeOutlets (root.findallDesc "outlet") [] with
      | some v, some c, some p, some ap, some pf, some t,
        some vo, some bl, some ll, some pc, some os =>
          some ⟨v, c, p, ap, pf, t, vo, bl, ll, pc, os⟩
      | _, _, _, _, _, _, _, _, _, _, _ => none

/-- The framed status request (lines 178-180); `none` when the
`not self.device_id` precondition check fails first. -/
def getStatusRequest (dev : Device) : Option String :=
  if pyFalsy dev.device_id then none
  else some (xml_command (optStr dev.device_class) (optStr dev.device_id)
    "<command><sendstatus/></command>")

/-- Operation `get_status` (lines 167-218): precondition check, one exchange, then
decode; `none` models the empty dict `{}`. -/
def get_status (dev : Device) (tr : Transport) : Option Status :=
  match getStatusRequest dev with
  | none => none
  | some req => getStatusDecode (tr req)

/-! ## Outlet control (`set_outlet`, lines 220-256) -/

/-- The transaction identifier embedded by the f-string on line 244 and
matched again on line 253: it is a function of the outlet id alone. -/
def setOutletXid (outlet_id : Int) : String :=
  "set_outlet_" ++ toString outlet_id

/-- The inner command body of `set_outlet` (lines 243-244). -/
def setOutletMessage (outlet_id : Int) (state : Bool) : String :=
  "<command xid=\"" ++ setOutletXid outlet_id ++ "\"><outlet id=\"" ++
    toString outlet_id ++ "\">" ++ (if state then "1" else "0") ++ "</outlet></command>"

/-- The local phase of `set_outlet` (lines 230-244): the
`not self.device_id` precondition, the outlet-id range check against the
configured capacity, and the framing of the command; `none` means the
call fails locally and nothing is sent. -/
def setOutletRequest (dev : Device) (outlet_id : Int) (state : Bool) : Option String :=
  if pyFalsy dev.device_id then none
  else
    let max_outlets := maxOutletsOf (configFor dev.device_type)
    if 1 ≤ outlet_id ∧ outlet_id ≤ max_outlets then
      some (xml_command (optStr dev.device_class) (optStr dev.device_id)
        (setOutletMessage outlet_id state))
    else none

/-- The response phase of `set_outlet` (lines 248-256): success iff the
parsed response has a descendant `ack` element whose `xid` attribute is
the generated transaction identifier
(`root.find(".//ack[@xid='set_outlet_N']")`). -/
def setOutletHandle (outlet_id : Int) (resp : Option (Option XML)) : Bool :=
  match resp with
  | none => false
  | some none => false
  | some (some root) =>
      (XML.descendants root).any
        (fun e => e.tag = "ack" ∧ e.getAttr "xid" = some (setOutletXid outlet_id))

/-- Operation `set_outlet` (lines 220-256). -/
def set_outlet (dev : Device) (outlet_id : Int) (state : Bool) (tr : Transport) : Bool :=
  match setOutletRequest dev outlet_id state with
  | none => false
  | some req => setOutletHandle outlet_id (tr req)

/-- A discovered session used for concrete runs: an M4315-PRO behind a
CV2 with MAC `0123456789ab`. -/
def devM4315 : Device :=
  { mkDevice "192.168.1.10" "0123456789AB" 57010 5 with
      device_class := some "km4315", device_id := some "42",
      device_type := some "M4315-PRO" }

example : setOutletMessage 3 true =
    "<command xid=\"set_outlet_3\"><outlet id=\"3\">1</outlet></command>" := by decide
example : set_outlet devM4315 0 true (fun _ => some (some (XML.elem "x" [] none []))) = false := by
  decide
example : set_outlet devM4315 3 true
    (fun _ => some (some (XML.elem "device" [] none
      [XML.elem "ack" [("xid", "set_outlet_3")] none []]))) = true := by decide
example : getStatusDecode (some (some (XML.elem "device" [] none
    [XML.elem "voltage" [] (some "120.5") [],
     XML.elem "amperage" [] (some "2.1") [],
     XML.elem "outlet" [("id", "1")] (some "1") [],
     XML.elem "outlet" [("id", "2")] (some "0") []]))) =
  some ⟨Rat.divInt 241 2, Rat.divInt 21 10, 0, 0, 0, 0, none, none, none, none,
    [(1, true), (2, false)]⟩ := by decide

/-! ## A frame parser used to state well-formedness of the command framer -/

/-- The double-quote character, named so it can appear in patterns. -/
def dq : Char := Char.ofNat 34

/-- Strip an expected literal head from a character list. -/
def dropPre : List Char → List Char → Option (List Char)
  | [], l => some l
  | _ :: _, [] => none
  | p :: ps, c :: cs => if p = c then dropPre ps cs else none

/-- Strip an expected literal tail from a character list. -/
def dropSuf (suf l : List Char) : Option (List Char) :=
  (dropPre suf.reverse l.reverse).map List.reverse

def frameHead : List Char := "<?xml version=\"1.0\" ?><device class=\"".data
def frameMid1 : List Char := "\" id=\"".data
def frameMid2 : List Char := "\">".data
def frameTail : List Char := "</device>".data

/-- Parse a framed command back into its class attribute, id attribute
and inner body: the inverse of the `xml_command` template.  Succeeding
with `(c, i, b)` exhibits the frame as exactly one root `device` element
with attributes `class = c`, `id = i`, and content `b`. -/
def extractFrameL (l : List Char) : Option (List Char × List Char × List Char) :=
  (dropPre frameHead l).bind (fun r1 =>
    (dropPre frameMid1 (r1.dropWhile (fun ch => ch ≠ dq))).bind (fun r3 =>
      (dropPre frameMid2 (r3.dropWhile (fun ch => ch ≠ dq))).bind (fun r5 =>
        (dropSuf frameTail r5).map (fun b =>
          (r1.takeWhile (fun ch => ch ≠ dq), r3.takeWhile (fun ch => ch ≠ dq), b)))))

/-- String-level wrapper of `extractFrameL`. -/
def extractFrame (s : String) : Option (String × String × String) :=
  (extractFrameL s.data).map (fun p => (⟨p.1⟩, ⟨p.2.1⟩, ⟨p.2.2⟩))

example : extractFrame (xml_command "cv2" "0123456789ab" "<command><sendfamily/></command>") =
    some ("cv2", "0123456789ab", "<command><sendfamily/></command>") := by decide

/-! ## Helper lemmas -/

theorem dropPre_append (p l : List Char) : dropPre p (p ++ l) = some l := by
  induction p with
  | nil => rfl
  | cons c cs ih => simp [dropPre, ih]

theorem takeWhile_append_stop (xs ys : List Char) (h : ∀ x ∈ xs, x ≠ dq) :
    (xs ++ dq :: ys).takeWhile (fun ch => ch ≠ dq) = xs := by
  induction xs with
  | nil => simp [List.takeWhile]
  | cons c cs ih =>
      have hc : c ≠ dq := h c (by simp)
      have ih2 := ih (fun x hx => h x (by simp [hx]))
      simp only [ne_eq, decide_not] at ih2
      simp [List.takeWhile_cons, hc, ih2]

theorem dropWhile_append_stop (xs ys : List Char) (h : ∀ x ∈ xs, x ≠ dq) :
    (xs ++ dq :: ys).dropWhile (fun ch => ch ≠ dq) = dq :: ys := by
  induction xs with
  | nil => simp [List.dropWhile]
  | cons c cs ih =>
      have hc : c ≠ dq := h c (by simp)
      have ih2 := ih (fun x hx => h x (by simp [hx]))
      simp only [ne_eq, decide_not] at ih2
      simp [List.dropWhile_cons, hc, ih2]

theorem dropSuf_append (suf b : List Char) : dropSuf suf (b ++ suf) = some b := by
  unfold dropSuf
  rw [List.reverse_append, dropPre_append]
  simp

theorem string_data_append (a b : String) : (a ++ b).data = a.data ++ b.data := rfl

theorem frameMid1_cons : frameMid1 = dq :: " id=\"".data := by decide

theorem frameMid2_cons : frameMid2 = dq :: ">".data := by decide

/-- Data-level decomposition of a framed command. -/
theorem xml_command_data (c i b : String) :
    (xml_command c i b).data =
      frameHead ++ (c.data ++ (frameMid1 ++ (i.data ++ (frameMid2 ++ (b.data ++ frameTail))))) := by
  simp only [xml_command, string_data_append, List.append_assoc]
  have h1 : "<?xml version=\"1.0\" ?>".data ++ "<device class=\"".data = frameHead := by decide
  rw [← List.append_assoc "<?xml version=\"1.0\" ?>".data "<device class=\"".data, h1]
  rfl

/-- C8 core: on quote-free attribute values the extractor inverts the
framer. -/
theorem extractFrame_xml_command (c i b : String)
    (hc : ∀ ch ∈ c.data, ch ≠ dq) (hi : ∀ ch ∈ i.data, ch ≠ dq) :
    extractFrame (xml_command c i b) = some (c, i, b) := by
  unfold extractFrame extractFrameL
  rw [xml_command_data, dropPre_append]
  simp only [Option.some_bind]
  have e1 : c.data ++ (frameMid1 ++ (i.data ++ (frameMid2 ++ (b.data ++ frameTail)))) =
      c.data ++ dq :: (" id=\"".data ++ (i.data ++ (frameMid2 ++ (b.data ++ frameTail)))) := by
    rw [frameMid1_cons]; simp
  rw [e1, dropWhile_append_stop _ _ hc]
  have e2 : dq :: (" id=\"".data ++ (i.data ++ (frameMid2 ++ (b.data ++ frameTail)))) =
      frameMid1 ++ (i.data ++ (frameMid2 ++ (b.data ++ frameTail))) := by
    rw [frameMid1_cons]; simp
  rw [e2, dropPre_append]
  simp only [Option.some_bind]
  have e3 : i.data ++ (frameMid2 ++ (b.data ++ frameTail)) =
      i.data ++ dq :: (">".data ++ (b.data ++ frameTail)) := by
    rw [frameMid2_cons]; simp
  rw [e3, dropWhile_append_stop _ _ hi]
  have e4 : dq :: (">".data ++ (b.data ++ frameTail)) =
      frameMid2 ++ (b.data ++ frameTail) := by
    rw [frameMid2_cons]; simp
  rw [e4, dropPre_append]
  simp only [Option.some_bind]
  rw [dropSuf_append]
  rw [e1, takeWhile_append_stop _ _ hc, e3, takeWhile_append_stop _ _ hi]
  rfl

/-- C8: for all valid (quote-free, as §4.1 requires of trusted
identifiers) `deviceClass`, `deviceId` and `innerBody`, the framed
command is exactly the template string, and the frame parser recovers
the class attribute, id attribute and verbatim body from it — i.e. it is
well-formed as a single root `device` element with those attributes and
that sole content. -/
theorem claim_C8 (c i b : String)
    (hc : ∀ ch ∈ c.data, ch ≠ dq) (hi : ∀ ch ∈ i.data, ch ≠ dq) :
    xml_command c i b =
      "<?xml version=\"1.0\" ?><device class=\"" ++ c ++ "\" id=\"" ++ i ++ "\">" ++ b ++ "</device>" ∧
    extractFrame (xml_command c i b) = some (c, i, b) := by
  constructor
  · apply String.ext
    rw [xml_command_data]
    simp only [string_data_append, List.append_assoc]
    rfl
  · exact extractFrame_xml_command c i b hc hi

/-- Witness for C8 at the concrete status command of the source. -/
theorem claim_C8_witness :
    (∀ ch ∈ ("km4315" : String).data, ch ≠ dq) ∧
    (∀ ch ∈ ("42" : String).data, ch ≠ dq) ∧
    extractFrame (xml_command "km4315" "42" "<command><sendstatus/></command>") =
      some ("km4315", "42", "<command><sendstatus/></command>") :=
  ⟨by decide, by decide,
    (claim_C8 "km4315" "42" "<command><sendstatus/></command>" (by decide) (by decide)).2⟩

/-- C7: before a successful discovery (`device_id` unset, hence falsy),
`get_device_info` and `get_status` return the empty dict and `set_outlet`
returns `False`, and in each case no request is ever framed or sent (the
request builders return `none`), for every transport whatsoever. -/
theorem claim_C7 (dev : Device) (h : pyFalsy dev.device_id = true) :
    (∀ tr : Transport, get_device_info dev tr = (dev, none)) ∧
    (∀ tr : Transport, get_status dev tr = none) ∧
    (∀ (tr : Transport) (k : Int) (s : Bool), set_outlet dev k s tr = false) ∧
    getDeviceInfoRequest dev = none ∧
    getStatusRequest dev = none ∧
    (∀ (k : Int) (s : Bool), setOutletRequest dev k s = none) := by
  have h1 : getDeviceInfoRequest dev = none := by simp [getDeviceInfoRequest, h]
  have h2 : getStatusRequest dev = none := by simp [getStatusRequest, h]
  have h3 : ∀ (k : Int) (s : Bool), setOutletRequest dev k s = none := by
    intro k s; simp [setOutletRequest, h]
  refine ⟨?_, ?_, ?_, h1, h2, h3⟩
  · intro tr; simp [get_device_info, h1]
  · intro tr; simp [get_status, h2]
  · intro tr k s; simp [set_outlet, h3]

/-- Witness for C7 on a freshly constructed, never-connected session. -/
theorem claim_C7_witness :
    pyFalsy (mkDevice "192.168.1.10" "0123456789AB" 57010 5).device_id = true ∧
    get_status (mkDevice "192.168.1.10" "0123456789AB" 57010 5) (fun _ => none) = none :=
  ⟨by decide, (claim_C7 (mkDevice "192.168.1.10" "0123456789AB" 57010 5) (by decide)).2.1 _⟩

/-- Every entry of the configuration table has either an outlet count or
an outlet-bank count, never both and never zero. -/
theorem config_lookup_cases (ty : String) (cfg : DeviceConfig)
    (h : DEVICE_CONFIG.lookup ty = some cfg) :
    (cfg.outlets = some 8 ∧ cfg.outlet_banks = none) ∨
    (cfg.outlets = none ∧ cfg.outlet_banks = some 4) := by
  simp only [DEVICE_CONFIG, List.lookup] at h
  repeat' split at h
  all_goals first
    | (injection h with h; rw [← h]; decide)
    | (exact Option.noConfusion h)

/-- C5: on a discovered session whose family profile carries outlet
count N (or outlet-bank count N), `setOutlet 0` and `setOutlet (N+1)`
fail locally — no request is framed or sent — while every
`setOutlet k` with `1 ≤ k ≤ N` frames a request for transmission. -/
theorem claim_C5 (dev : Device) (ty : String) (cfg : DeviceConfig) (s : Bool)
    (hdisc : pyFalsy dev.device_id = false)
    (hty : dev.device_type = some ty)
    (hcfg : DEVICE_CONFIG.lookup ty = some cfg) :
    setOutletRequest dev 0 s = none ∧
    setOutletRequest dev (cfg.outlets.getD (cfg.outlet_banks.getD 8) + 1) s = none ∧
    (∀ k : Int, 1 ≤ k → k ≤ cfg.outlets.getD (cfg.outlet_banks.getD 8) →
      (setOutletRequest dev k s).isSome = true) := by
  have hmax : maxOutletsOf (configFor dev.device_type) =
      cfg.outlets.getD (cfg.outlet_banks.getD 8) := by
    rw [hty]
    simp only [configFor]
    rw [hcfg]
    simp only [Option.getD_some]
    rcases config_lookup_cases ty cfg hcfg with ⟨h1, h2⟩ | ⟨h1, h2⟩ <;>
      simp [maxOutletsOf, h1, h2]
  refine ⟨?_, ?_, ?_⟩
  · simp [setOutletRequest, hdisc]
  · simp only [setOutletRequest, hdisc, Bool.false_eq_true, if_false, hmax]
    rw [if_neg]
    omega
  · intro k hk1 hk2
    simp only [setOutletRequest, hdisc, Bool.false_eq_true, if_false, hmax]
    rw [if_pos ⟨hk1, hk2⟩]
    rfl

/-- Witness for C5 on a discovered M4315-PRO (8 outlets). -/
theorem claim_C5_witness :
    pyFalsy devM4315.device_id = false ∧
    devM4315.device_type = some "M4315-PRO" ∧
    DEVICE_CONFIG.lookup "M4315-PRO" =
      some ⟨"M4315-PRO", "Panamax", some 8, none, true, false⟩ ∧
    setOutletRequest devM4315 0 true = none :=
  ⟨by decide, by decide, by decide,
    (claim_C5 devM4315 "M4315-PRO" ⟨"M4315-PRO", "Panamax", some 8, none, true, false⟩
      true (by decide) (by decide) (by decide)).1⟩

/-- Inversion for a successful status decode: every field conversion
succeeded and produced the corresponding entry of the status dict. -/
theorem getStatusDecode_some_inv (root : XML) (st : Status)
    (h : getStatusDecode (some (some root)) = some st) :
    pyFloat (root.findtextD "voltage" "0") = some st.voltage ∧
    pyFloat (root.findtextD "amperage" "0") = some st.current ∧
    pyFloat (root.findtextD "wattage" "0") = some st.power ∧
    pyFloat (root.findtextD "pwrva" "0") = some st.apparent_power ∧
    pyFloat (root.findtextD "pwrfact" "0") = some st.power_factor ∧
    pyFloat (root.findtextD "temperature" "0") = some st.temperature ∧
    optFloatField root "voltageout" = some st.voltage_out ∧
    optFloatField root "battlevel" = some st.battery_level ∧
    optFloatField root "loadlevel" = some st.load_level ∧
    optIntField root "pwrcond" = some st.power_condition ∧
    decodeOutlets (root.findallDesc "outlet") [] = some st.outlets := by
  unfold getStatusDecode at h
  split at h
  · exact Option.noConfusion h
  · exact Option.noConfusion h
  · rename_i r heq
    injection heq with heq
    injection heq with heq
    subst heq
    split at h
    · injection h with h
      subst h
      and_intros <;> assumption
    · exact Option.noConfusion h

/-- If any of the six required base field conversions fails, the whole
decode yields the empty result. -/
theorem getStatusDecode_none_of_base (root : XML)
    (h : pyFloat (root.findtextD "voltage" "0") = none ∨
         pyFloat (root.findtextD "amperage" "0") = none ∨
         pyFloat (root.findtextD "wattage" "0") = none ∨
         pyFloat (root.findtextD "pwrva" "0") = none ∨
         pyFloat (root.findtextD "pwrfact" "0") = none ∨
         pyFloat (root.findtextD "temperature" "0") = none) :
    getStatusDecode (some (some root)) = none := by
  cases hd : getStatusDecode (some (some root)) with
  | none => rfl
  | some st =>
      have hinv := getStatusDecode_some_inv root st hd
      rcases h with h | h | h | h | h | h <;> simp_all

/-- C6: on a discovered session, `getStatus` returns the empty result —
never an all-zero snapshot — whenever the transport fails, the response
is malformed XML, or any of the six required numeric fields is
non-numeric; and the empty result is distinct from every populated
snapshot, all-zero included. -/
theorem claim_C6 (dev : Device) (hdisc : pyFalsy dev.device_id = false) :
    (∀ tr : Transport, (∀ q, tr q = none) → get_status dev tr = none) ∧
    (∀ tr : Transport, (∀ q, tr q = some none) → get_status dev tr = none) ∧
    (∀ root : XML,
      (pyFloat (root.findtextD "voltage" "0") = none ∨
       pyFloat (root.findtextD "amperage" "0") = none ∨
       pyFloat (root.findtextD "wattage" "0") = none ∨
       pyFloat (root.findtextD "pwrva" "0") = none ∨
       pyFloat (root.findtextD "pwrfact" "0") = none ∨
       pyFloat (root.findtextD "temperature" "0") = none) →
      get_status dev (fun _ => some (some root)) = none) ∧
    (∀ st : Status, (some st : Option Status) ≠ none) := by
  have hreq : ∀ tr : Transport,
      get_status dev tr = getStatusDecode (tr (xml_command (optStr dev.device_class)
        (optStr dev.device_id) "<command><sendstatus/></command>")) := by
    intro tr
    simp [get_status, getStatusRequest, hdisc]
  refine ⟨?_, ?_, ?_, ?_⟩
  · intro tr htr; rw [hreq, htr]; rfl
  · intro tr htr; rw [hreq, htr]; rfl
  · intro root hbad
    rw [hreq]
    exact getStatusDecode_none_of_base root hbad
  · intro st hst
    exact Option.noConfusion hst

/-- Witness for C6: a discovered session whose transport times out. -/
theorem claim_C6_witness :
    pyFalsy devM4315.device_id = false ∧
    get_status devM4315 (fun _ => none) = none :=
  ⟨by decide, (claim_C6 devM4315 (by decide)).1 (fun _ => none) (fun _ => rfl)⟩

/-- Helper: `root.findtext(".//tag", d)` returns the first match's text. -/
theorem findtextD_of_findDesc (root : XML) (tag d : String) (e : XML)
    (h : root.findDesc tag = some e) : root.findtextD tag d = e.textOrEmpty := by
  unfold XML.findtextD
  rw [h]

/-- Helper: `root.findtext(".//tag", d)` returns the default when no element
matches. -/
theorem findtextD_of_none (root : XML) (tag d : String)
    (h : root.findDesc tag = none) : root.findtextD tag d = d := by
  unfold XML.findtextD
  rw [h]

/-- Inversion of one optional UPS float field: the snapshot entry exists
iff the source element does, and carries the parse of its text. -/
theorem optFloatField_inv (root : XML) (tag : String) (w : Option ℚ)
    (h : optFloatField root tag = some w) :
    ((root.findDesc tag).isSome ↔ w.isSome) ∧
    (∀ e, root.findDesc tag = some e → w = pyFloat e.textOrEmpty) := by
  unfold optFloatField at h
  cases hf : root.findDesc tag with
  | none =>
      rw [hf] at h
      injection h with h
      subst h
      simp [hf]
  | some e =>
      rw [hf] at h
      cases hp : pyFloat (root.findtextD tag "0") with
      | none => rw [hp] at h; exact Option.noConfusion h
      | some q =>
          rw [hp] at h
          injection h with h
          subst h
          rw [findtextD_of_findDesc root tag "0" e hf] at hp
          refine ⟨by simp, ?_⟩
          intro e2 he2
          injection he2 with he2
          subst he2
          exact hp.symm

/-- Inversion of the optional `pwrcond` int field. -/
theorem optIntField_inv (root : XML) (tag : String) (w : Option Int)
    (h : optIntField root tag = some w) :
    ((root.findDesc tag).isSome ↔ w.isSome) ∧
    (∀ e, root.findDesc tag = some e → w = pyInt e.textOrEmpty) := by
  unfold optIntField at h
  cases hf : root.findDesc tag with
  | none =>
      rw [hf] at h
      injection h with h
      subst h
      simp [hf]
  | some e =>
      rw [hf] at h
      cases hp : pyInt (root.findtextD tag "0") with
      | none => rw [hp] at h; exact Option.noConfusion h
      | some q =>
          rw [hp] at h
          injection h with h
          subst h
          rw [findtextD_of_findDesc root tag "0" e hf] at hp
          refine ⟨by simp, ?_⟩
          intro e2 he2
          injection he2 with he2
          subst he2
          exact hp.symm

theorem pyFloat_zero_lit : pyFloat "0" = some 0 := by decide

/-- A base numeric field defaults to `0.0` when its element is absent. -/
theorem base_field_default (root : XML) (tag : String) (q : ℚ)
    (h : pyFloat (root.findtextD tag "0") = some q)
    (habs : root.findDesc tag = none) : q = 0 := by
  rw [findtextD_of_none root tag "0" habs, pyFloat_zero_lit] at h
  injection h with h
  exact h.symm

/-- C2: for every parsed status response that decodes successfully, each
optional UPS field is in the snapshot iff its source element is in the
XML, carrying exactly the parse of that element's text (no default
substituted when absent — the key itself is missing, i.e. `none`); the
six base numeric fields are always present (structurally, as plain
fields of `Status`) and equal `0.0` whenever their element is absent. -/
theorem claim_C2 (root : XML) (st : Status)
    (h : getStatusDecode (some (some root)) = some st) :
    ((root.findDesc "voltageout").isSome ↔ st.voltage_out.isSome) ∧
    (∀ e, root.findDesc "voltageout" = some e → st.voltage_out = pyFloat e.textOrEmpty) ∧
    ((root.findDesc "battlevel").isSome ↔ st.battery_level.isSome) ∧
    (∀ e, root.findDesc "battlevel" = some e → st.battery_level = pyFloat e.textOrEmpty) ∧
    ((root.findDesc "loadlevel").isSome ↔ st.load_level.isSome) ∧
    (∀ e, root.findDesc "loadlevel" = some e → st.load_level = pyFloat e.textOrEmpty) ∧
    ((root.findDesc "pwrcond").isSome ↔ st.power_condition.isSome) ∧
    (∀ e, root.findDesc "pwrcond" = some e → st.power_condition = pyInt e.textOrEmpty) ∧
    (root.findDesc "voltage" = none → st.voltage = 0) ∧
    (root.findDesc "amperage" = none → st.current = 0) ∧
    (root.findDesc "wattage" = none → st.power = 0) ∧
    (root.findDesc "pwrva" = none → st.apparent_power = 0) ∧
    (root.findDesc "pwrfact" = none → st.power_factor = 0) ∧
    (root.findDesc "temperature" = none → st.temperature = 0) := by
  obtain ⟨h1, h2, h3, h4, h5, h6, h7, h8, h9, h10, _⟩ := getStatusDecode_some_inv root st h
  obtain ⟨hvo1, hvo2⟩ := optFloatField_inv root "voltageout" st.voltage_out h7
  obtain ⟨hbl1, hbl2⟩ := optFloatField_inv root "battlevel" st.battery_level h8
  obtain ⟨hll1, hll2⟩ := optFloatField_inv root "loadlevel" st.load_level h9
  obtain ⟨hpc1, hpc2⟩ := optIntField_inv root "pwrcond" st.power_condition h10
  exact ⟨hvo1, hvo2, hbl1, hbl2, hll1, hll2, hpc1, hpc2,
    fun ha => base_field_default root "voltage" st.voltage h1 ha,
    fun ha => base_field_default root "amperage" st.current h2 ha,
    fun ha => base_field_default root "wattage" st.power h3 ha,
    fun ha => base_field_default root "pwrva" st.apparent_power h4 ha,
    fun ha => base_field_default root "pwrfact" st.power_factor h5 ha,
    fun ha => base_field_default root "temperature" st.temperature h6 ha⟩

/-- A UPS-style status response: `voltageout` present with text `118.0`,
`battlevel` present, `loadlevel` and `pwrcond` absent. -/
def upsRoot : XML :=
  XML.elem "device" [] none
    [XML.elem "voltage" [] (some "120.5") [],
     XML.elem "voltageout" [] (some "118.0") [],
     XML.elem "battlevel" [] (some "0.95") []]

/-- The snapshot `upsRoot` decodes to. -/
def upsStatus : Status :=
  ⟨Rat.divInt 241 2, 0, 0, 0, 0, 0, some 118, some (Rat.divInt 19 20), none, none, []⟩

/-- Witness for C2 on `upsRoot`: a present `voltageout` is carried over
exactly, absent `loadlevel` and `pwrcond` are omitted. -/
theorem claim_C2_witness :
    getStatusDecode (some (some upsRoot)) = some upsStatus ∧
    ((upsRoot.findDesc "loadlevel").isSome ↔ upsStatus.load_level.isSome) :=
  ⟨by decide, (claim_C2 upsRoot upsStatus (by decide)).2.2.2.2.1⟩

theorem lookup_mapInsert_self (d : List (Int × Bool)) (k : Int) (v : Bool)
    (h : (d.any fun p => p.1 = k) = true) :
    dictLookup (d.map (fun p => if p.1 = k then (k, v) else p)) k = some v := by
  induction d with
  | nil => simp at h
  | cons p t ih =>
      obtain ⟨a, b⟩ := p
      by_cases hp : a = k
      · rw [List.map_cons]
        simp only [hp, if_true]
        simp [dictLookup]
      · rw [List.map_cons]
        simp only [hp, if_false]
        simp only [dictLookup, hp, if_false]
        simp only [List.any_cons, Bool.or_eq_true, decide_eq_true_eq] at h
        rcases h with h | h
        · exact absurd h hp
        · exact ih h

theorem lookup_append_single_self (d : List (Int × Bool)) (k : Int) (v : Bool)
    (h : (d.any fun p => p.1 = k) = false) :
    dictLookup (d ++ [(k, v)]) k = some v := by
  induction d with
  | nil => simp [dictLookup]
  | cons p t ih =>
      obtain ⟨a, b⟩ := p
      simp only [List.any_cons, Bool.or_eq_false_iff, decide_eq_false_iff_not] at h
      simp only [List.cons_append, dictLookup, h.1, if_false]
      exact ih h.2

theorem lookup_mapInsert_ne (d : List (Int × Bool)) (k : Int) (v : Bool)
    (k2 : Int) (hne : k2 ≠ k) :
    dictLookup (d.map (fun p => if p.1 = k then (k, v) else p)) k2 = dictLookup d k2 := by
  induction d with
  | nil => rfl
  | cons p t ih =>
      obtain ⟨a, b⟩ := p
      by_cases hp : a = k
      · rw [List.map_cons]
        simp only [hp, if_true]
        simp only [dictLookup]
        rw [if_neg (fun hh => hne hh.symm), if_neg (fun hh => hne hh.symm)]
        exact ih
      · rw [List.map_cons]
        simp only [hp, if_false]
        simp only [dictLookup]
        split
        · rfl
        · exact ih

theorem lookup_append_single_ne (d : List (Int × Bool)) (k : Int) (v : Bool)
    (k2 : Int) (hne : k2 ≠ k) :
    dictLookup (d ++ [(k, v)]) k2 = dictLookup d k2 := by
  induction d with
  | nil =>
      simp only [List.nil_append, dictLookup]
      rw [if_neg (fun hh => hne hh.symm)]
  | cons p t ih =>
      obtain ⟨a, b⟩ := p
      simp only [List.cons_append, dictLookup]
      split
      · rfl
      · exact ih

theorem dictLookup_insert_self (d : List (Int × Bool)) (k : Int) (v : Bool) :
    dictLookup (dictInsert d k v) k = some v := by
  unfold dictInsert
  cases hany : (d.any fun p => p.1 = k) with
  | true => rw [if_pos rfl]; exact lookup_mapInsert_self d k v hany
  | false => rw [if_neg (by simp)]; exact lookup_append_single_self d k v hany

theorem dictLookup_insert_ne (d : List (Int × Bool)) (k : Int) (v : Bool)
    (k2 : Int) (hne : k2 ≠ k) :
    dictLookup (dictInsert d k v) k2 = dictLookup d k2 := by
  unfold dictInsert
  split
  · exact lookup_mapInsert_ne d k v k2 hne
  · exact lookup_append_single_ne d k v k2 hne

/-- If any outlet element's id attribute fails integer conversion, the
outlet loop (and with it the whole decode) fails, whatever has been
accumulated so far. -/
theorem decodeOutlets_none_of_bad (l : List XML) (e : XML) (he : e ∈ l)
    (hbad : pyInt (e.getAttrD "id" "0") = none) (acc : List (Int × Bool)) :
    decodeOutlets l acc = none := by
  induction l generalizing acc with
  | nil => cases he
  | cons x xs ih =>
      rcases List.mem_cons.mp he with rfl | hmem
      · unfold decodeOutlets
        rw [hbad]
        rfl
      · unfold decodeOutlets
        cases hx : pyInt (x.getAttrD "id" "0") with
        | none => rfl
        | some i =>
            simp only [Option.some_bind]
            split
            · exact ih hmem _
            · exact ih hmem _

/-- Key membership of the decoded outlet dict: a key is present iff it
was already accumulated or some outlet element carries it as a positive
id. -/
theorem decodeOutlets_key_iff (l : List XML) (acc d : List (Int × Bool))
    (h : decodeOutlets l acc = some d) (k : Int) :
    (dictLookup d k).isSome = true ↔
      ((dictLookup acc k).isSome = true ∨
        ∃ e ∈ l, pyInt (e.getAttrD "id" "0") = some k ∧ 0 < k) := by
  induction l generalizing acc with
  | nil =>
      unfold decodeOutlets at h
      injection h with h
      subst h
      simp
  | cons x xs ih =>
      unfold decodeOutlets at h
      cases hx : pyInt (x.getAttrD "id" "0") with
      | none => rw [hx] at h; exact Option.noConfusion h
      | some i =>
          rw [hx] at h
          simp only [Option.some_bind] at h
          by_cases hi : 0 < i
          · rw [if_pos hi] at h
            have hrec := ih _ h
            by_cases hk : k = i
            · subst hk
              constructor
              · intro _
                exact Or.inr ⟨x, by simp, hx, hi⟩
              · intro _
                rw [hrec]
                exact Or.inl (by rw [dictLookup_insert_self]; rfl)
            · rw [hrec, dictLookup_insert_ne acc i _ k hk]
              constructor
              · rintro (hl | ⟨e, hmem, h1, h2⟩)
                · exact Or.inl hl
                · exact Or.inr ⟨e, List.mem_cons_of_mem _ hmem, h1, h2⟩
              · rintro (hl | ⟨e, hmem, h1, h2⟩)
                · exact Or.inl hl
                · rcases List.mem_cons.mp hmem with rfl | hmem2
                  · rw [hx] at h1
                    injection h1 with h1
                    exact absurd h1.symm hk
                  · exact Or.inr ⟨e, hmem2, h1, h2⟩
          · rw [if_neg hi] at h
            rw [ih _ h]
            constructor
            · rintro (hl | ⟨e, hmem, h1, h2⟩)
              · exact Or.inl hl
              · exact Or.inr ⟨e, List.mem_cons_of_mem _ hmem, h1, h2⟩
            · rintro (hl | ⟨e, hmem, h1, h2⟩)
              · exact Or.inl hl
              · rcases List.mem_cons.mp hmem with rfl | hmem2
                · rw [hx] at h1
                  injection h1 with h1
                  subst h1
                  exact absurd h2 hi
                · exact Or.inr ⟨e, hmem2, h1, h2⟩

/-- Values of the decoded outlet dict: every entry either survives from
the accumulator or records, for some outlet element with that positive
id, whether its text is exactly `"1"`. -/
theorem decodeOutlets_val (l : List XML) (acc d : List (Int × Bool))
    (h : decodeOutlets l acc = some d) (k : Int) (v : Bool)
    (hl : dictLookup d k = some v) :
    dictLookup acc k = some v ∨
      ∃ e ∈ l, pyInt (e.getAttrD "id" "0") = some k ∧ 0 < k ∧
        (v = true ↔ e.text = some "1") := by
  induction l generalizing acc with
  | nil =>
      unfold decodeOutlets at h
      injection h with h
      subst h
      exact Or.inl hl
  | cons x xs ih =>
      unfold decodeOutlets at h
      cases hx : pyInt (x.getAttrD "id" "0") with
      | none => rw [hx] at h; exact Option.noConfusion h
      | some i =>
          rw [hx] at h
          simp only [Option.some_bind] at h
          by_cases hi : 0 < i
          · rw [if_pos hi] at h
            rcases ih _ h with hacc | ⟨e, hmem, h1, h2, h3⟩
            · by_cases hk : k = i
              · subst hk
                rw [dictLookup_insert_self] at hacc
                injection hacc with hacc
                refine Or.inr ⟨x, by simp, hx, hi, ?_⟩
                rw [← hacc]
                simp
              · rw [dictLookup_insert_ne acc i _ k hk] at hacc
                exact Or.inl hacc
            · exact Or.inr ⟨e, List.mem_cons_of_mem _ hmem, h1, h2, h3⟩
          · rw [if_neg hi] at h
            rcases ih _ h with hacc | ⟨e, hmem, h1, h2, h3⟩
            · exact Or.inl hacc
            · exact Or.inr ⟨e, List.mem_cons_of_mem _ hmem, h1, h2, h3⟩

/-- C9: in a successfully decoded snapshot the outlet mapping has a key
for exactly the strictly positive integer ids carried by `outlet`
elements (ids `0`, negative, or defaulted from a missing attribute
contribute nothing), and every entry records whether some such element's
text is exactly the literal `"1"`. -/
theorem claim_C9 (root : XML) (st : Status)
    (h : getStatusDecode (some (some root)) = some st) :
    (∀ k : Int, (dictLookup st.outlets k).isSome = true ↔
        ∃ e ∈ root.findallDesc "outlet", pyInt (e.getAttrD "id" "0") = some k ∧ 0 < k) ∧
    (∀ (k : Int) (v : Bool), dictLookup st.outlets k = some v →
        ∃ e ∈ root.findallDesc "outlet", pyInt (e.getAttrD "id" "0") = some k ∧ 0 < k ∧
          (v = true ↔ e.text = some "1")) := by
  have hout := (getStatusDecode_some_inv root st h).2.2.2.2.2.2.2.2.2.2
  constructor
  · intro k
    rw [decodeOutlets_key_iff _ _ _ hout k]
    simp [dictLookup]
  · intro k v hv
    rcases decodeOutlets_val _ _ _ hout k v hv with hacc | hgood
    · exact Option.noConfusion hacc
    · exact hgood

/-- A status response with regular, zero-id and id-less outlet elements. -/
def outletRoot : XML :=
  XML.elem "device" [] none
    [XML.elem "outlet" [("id", "1")] (some "1") [],
     XML.elem "outlet" [("id", "2")] (some "0") [],
     XML.elem "outlet" [("id", "0")] (some "1") [],
     XML.elem "outlet" [] (some "1") []]

/-- The snapshot `outletRoot` decodes to. -/
def outletStatus : Status :=
  ⟨0, 0, 0, 0, 0, 0, none, none, none, none, [(1, true), (2, false)]⟩

/-- Witness for C9 on `outletRoot`. -/
theorem claim_C9_witness :
    getStatusDecode (some (some outletRoot)) = some outletStatus ∧
    ((dictLookup outletStatus.outlets 1).isSome = true ↔
      ∃ e ∈ outletRoot.findallDesc "outlet",
        pyInt (e.getAttrD "id" "0") = some 1 ∧ (0 : Int) < 1) :=
  ⟨by decide, (claim_C9 outletRoot outletStatus (by decide)).1 1⟩

theorem optFloatField_none_of_bad (root : XML) (tag : String) (e : XML)
    (hf : root.findDesc tag = some e) (hb : pyFloat e.textOrEmpty = none) :
    optFloatField root tag = none := by
  unfold optFloatField
  rw [hf]
  show (pyFloat (root.findtextD tag "0")).map some = none
  rw [findtextD_of_findDesc root tag "0" e hf, hb]
  rfl

theorem optIntField_none_of_bad (root : XML) (tag : String) (e : XML)
    (hf : root.findDesc tag = some e) (hb : pyInt e.textOrEmpty = none) :
    optIntField root tag = none := by
  unfold optIntField
  rw [hf]
  show (pyInt (root.findtextD tag "0")).map some = none
  rw [findtextD_of_findDesc root tag "0" e hf, hb]
  rfl

/-- C10: a conversion failure anywhere in the status decode — a present
UPS element with non-numeric text, or a non-integer id attribute on any
outlet element, not only the six base fields — makes the whole call
return the empty result; no partial snapshot is produced. -/
theorem claim_C10 (root : XML) :
    (∀ e, root.findDesc "voltageout" = some e → pyFloat e.textOrEmpty = none →
        getStatusDecode (some (some root)) = none) ∧
    (∀ e, root.findDesc "battlevel" = some e → pyFloat e.textOrEmpty = none →
        getStatusDecode (some (some root)) = none) ∧
    (∀ e, root.findDesc "loadlevel" = some e → pyFloat e.textOrEmpty = none →
        getStatusDecode (some (some root)) = none) ∧
    (∀ e, root.findDesc "pwrcond" = some e → pyInt e.textOrEmpty = none →
        getStatusDecode (some (some root)) = none) ∧
    (∀ e, e ∈ root.findallDesc "outlet" → pyInt (e.getAttrD "id" "0") = none →
        getStatusDecode (some (some root)) = none) := by
  refine ⟨?_, ?_, ?_, ?_, ?_⟩ <;> intro e hf hb <;>
    cases hd : getStatusDecode (some (some root)) with
    | none => rfl
    | some st => ?_
  · have := (getStatusDecode_some_inv root st hd).2.2.2.2.2.2.1
    rw [optFloatField_none_of_bad root "voltageout" e hf hb] at this
    exact Option.noConfusion this
  · have := (getStatusDecode_some_inv root st hd).2.2.2.2.2.2.2.1
    rw [optFloatField_none_of_bad root "battlevel" e hf hb] at this
    exact Option.noConfusion this
  · have := (getStatusDecode_some_inv root st hd).2.2.2.2.2.2.2.2.1
    rw [optFloatField_none_of_bad root "loadlevel" e hf hb] at this
    exact Option.noConfusion this
  · have := (getStatusDecode_some_inv root st hd).2.2.2.2.2.2.2.2.2.1
    rw [optIntField_none_of_bad root "pwrcond" e hf hb] at this
    exact Option.noConfusion this
  · have := (getStatusDecode_some_inv root st hd).2.2.2.2.2.2.2.2.2.2
    rw [decodeOutlets_none_of_bad (root.findallDesc "outlet") e hf hb []] at this
    exact Option.noConfusion this

/-- A status response whose `voltageout` element has non-numeric text. -/
def badUpsRoot : XML :=
  XML.elem "device" [] none
    [XML.elem "voltage" [] (some "120.5") [],
     XML.elem "voltageout" [] (some "garbled") []]

/-- Witness for C10 on `badUpsRoot`: the present-but-non-numeric
`voltageout` aborts the whole decode. -/
theorem claim_C10_witness :
    badUpsRoot.findDesc "voltageout" = some (XML.elem "voltageout" [] (some "garbled") []) ∧
    pyFloat (XML.elem "voltageout" [] (some "garbled") []).textOrEmpty = none ∧
    getStatusDecode (some (some badUpsRoot)) = none :=
  ⟨rfl, by decide,
    (claim_C10 badUpsRoot).1 (XML.elem "voltageout" [] (some "garbled") []) rfl (by decide)⟩

/-- A response document wrapping an acknowledgment for transaction id
`set_outlet_3` under the root. -/
def ackResp3 : XML :=
  XML.elem "device" [] none [XML.elem "ack" [("xid", "set_outlet_3")] none []]

/-- C1 counterexample: `setOutlet(3, true)` and `setOutlet(3, false)` are
two distinct calls (their framed requests differ), yet one and the same
acknowledgment response satisfies both — the generated transaction
identifier is `set_outlet_3` for each, so the second call's
acknowledgment is indistinguishable from the first's. -/
theorem claim_C1_counterexample :
    setOutletRequest devM4315 3 true ≠ setOutletRequest devM4315 3 false ∧
    set_outlet devM4315 3 true (fun _ => some (some ackResp3)) = true ∧
    set_outlet devM4315 3 false (fun _ => some (some ackResp3)) = true := by
  refine ⟨by decide, by decide, by decide⟩

/-- C1 amended: the transaction identifier is a deterministic function
of the outlet id alone; over the valid outlet range two calls generate
distinct identifiers iff they address distinct outlets, and in
particular consecutive calls on the same outlet share one identifier. -/
theorem claim_C1_amended (k1 k2 : Int)
    (h1 : 1 ≤ k1) (h2 : k1 ≤ 8) (h3 : 1 ≤ k2) (h4 : k2 ≤ 8) :
    setOutletXid k1 = setOutletXid k2 ↔ k1 = k2 := by
  interval_cases k1 <;> interval_cases k2 <;> decide

/-- Witness for C1 amended at outlets 3 and 4. -/
theorem claim_C1_amended_witness :
    ((1 : Int) ≤ 3 ∧ (3 : Int) ≤ 8 ∧ (1 : Int) ≤ 4 ∧ (4 : Int) ≤ 8) ∧
    (setOutletXid 3 = setOutletXid 4 ↔ (3 : Int) = 4) :=
  ⟨by decide, claim_C1_amended 3 4 (by decide) (by decide) (by decide) (by decide)⟩

/-- A response document that is itself the acknowledgment element: the
ack is in the document, but not strictly below the root. -/
def ackRootOnly : XML := XML.elem "ack" [("xid", "set_outlet_3")] none []

/-- C3 counterexample: the parsed response `ackRootOnly` contains — as
its root — an acknowledgment element whose `xid` equals the generated
identifier, yet `set_outlet` returns `False`, because the search
`.//ack[@xid=...]` ranges over proper descendants only. -/
theorem claim_C3_counterexample :
    ackRootOnly.tag = "ack" ∧
    ackRootOnly.getAttr "xid" = some (setOutletXid 3) ∧
    set_outlet devM4315 3 true (fun _ => some (some ackRootOnly)) = false := by
  refine ⟨by decide, by decide, by decide⟩

/-- C3 amended: on a discovered session with a valid outlet id,
`set_outlet` returns `True` iff the transport delivers a parseable
response having, strictly below its root, an `ack` element whose `xid`
attribute equals the transaction identifier generated for the call;
transport failure, parse failure or identifier mismatch all give
`False`. -/
theorem claim_C3_amended (dev : Device) (k : Int) (state : Bool) (tr : Transport)
    (hdisc : pyFalsy dev.device_id = false)
    (h1 : 1 ≤ k) (h2 : k ≤ maxOutletsOf (configFor dev.device_type)) :
    set_outlet dev k state tr = true ↔
      ∃ req root, setOutletRequest dev k state = some req ∧
        tr req = some (some root) ∧
        ∃ e ∈ XML.descendants root, e.tag = "ack" ∧
          e.getAttr "xid" = some (setOutletXid k) := by
  have hreq : setOutletRequest dev k state =
      some (xml_command (optStr dev.device_class) (optStr dev.device_id)
        (setOutletMessage k state)) := by
    simp [setOutletRequest, hdisc, h1, h2]
  unfold set_outlet
  rw [hreq]
  show setOutletHandle k (tr (xml_command (optStr dev.device_class)
    (optStr dev.device_id) (setOutletMessage k state))) = true ↔ _
  constructor
  · intro h
    cases htr : tr (xml_command (optStr dev.device_class) (optStr dev.device_id)
        (setOutletMessage k state)) with
    | none => rw [htr] at h; exact Bool.noConfusion h
    | some o =>
        cases o with
        | none => rw [htr] at h; exact Bool.noConfusion h
        | some root =>
            rw [htr] at h
            unfold setOutletHandle at h
            rw [List.any_eq_true] at h
            obtain ⟨e, hmem, hp⟩ := h
            rw [decide_eq_true_iff] at hp
            exact ⟨_, root, rfl, htr, e, hmem, hp⟩
  · rintro ⟨req, root, hr, htr, e, hmem, htag, hxid⟩
    injection hr with hr
    subst hr
    rw [htr]
    unfold setOutletHandle
    rw [List.any_eq_true]
    exact ⟨e, hmem, by rw [decide_eq_true_iff]; exact ⟨htag, hxid⟩⟩

/-- Witness for C3 amended: outlet 3 with an ack wrapped below the root. -/
theorem claim_C3_witness :
    (pyFalsy devM4315.device_id = false ∧ (1 : Int) ≤ 3 ∧
      (3 : Int) ≤ maxOutletsOf (configFor devM4315.device_type)) ∧
    (set_outlet devM4315 3 true (fun _ => some (some ackResp3)) = true ↔
      ∃ req root, setOutletRequest devM4315 3 true = some req ∧
        (fun _ => some (some ackResp3) : Transport) req = some (some root) ∧
        ∃ e ∈ XML.descendants root, e.tag = "ack" ∧
          e.getAttr "xid" = some (setOutletXid 3)) :=
  ⟨⟨by decide, by decide, by decide⟩,
    claim_C3_amended devM4315 3 true (fun _ => some (some ackResp3))
      (by decide) (by decide) (by decide)⟩

/-- The condition the discovery loop actually requires before adopting a
`kids` element: a recognized `class` attribute AND a direct `k` child
with truthy text. -/
def adoptable (e : XML) : Bool :=
  (match e.getAttr "class" with
   | some c => (DEVICE_CLASS_MAP.lookup c).isSome
   | none => false) &&
  (match (e.findChild "k").bind XML.text with
   | some t => t ≠ ""
   | none => false)

/-- The claim's candidate ("first sub-device element whose class
attribute matches a known entry in the family lookup table"), stated
from the spec's words for comparison with the implementation. -/
def firstClassMatchingKid (l : List XML) : Option XML :=
  l.find? (fun e =>
    match e.getAttr "class" with
    | some c => (DEVICE_CLASS_MAP.lookup c).isSome
    | none => false)

/-- The scan invariant: `connectScan` adopts exactly the first
`adoptable` element, returning its class, identifier text and mapped
type. -/
def ScanInv (l : List XML) : Prop :=
  (l.find? adoptable = none → connectScan l = none) ∧
  (∀ e, l.find? adoptable = some e →
    ∃ c ty t, e.getAttr "class" = some c ∧ DEVICE_CLASS_MAP.lookup c = some ty ∧
      (e.findChild "k").bind XML.text = some t ∧ t ≠ "" ∧
      connectScan l = some (c, t, ty))

theorem scanInv_skip (x : XML) (rest : List XML)
    (hx : adoptable x = false)
    (hscan : connectScan (x :: rest) = connectScan rest)
    (ih : ScanInv rest) : ScanInv (x :: rest) := by
  constructor
  · intro h
    simp only [List.find?_cons, hx] at h
    rw [hscan]
    exact ih.1 h
  · intro e he
    simp only [List.find?_cons, hx] at he
    obtain ⟨c, ty, t, h1, h2, h3, h4, h5⟩ := ih.2 e he
    exact ⟨c, ty, t, h1, h2, h3, h4, by rw [hscan]; exact h5⟩

theorem connectScan_spec (l : List XML) : ScanInv l := by
  induction l with
  | nil => exact ⟨fun _ => rfl, fun e he => Option.noConfusion he⟩
  | cons x rest ih =>
      rcases hc : x.getAttr "class" with _ | c
      · exact scanInv_skip x rest (by simp [adoptable, hc])
          (by simp [connectScan, hc]) ih
      · rcases hl : DEVICE_CLASS_MAP.lookup c with _ | ty
        · exact scanInv_skip x rest (by simp [adoptable, hc, hl])
            (by simp [connectScan, hc, hl]) ih
        · rcases hk : x.findChild "k" with _ | kElem
          · exact scanInv_skip x rest (by simp [adoptable, hc, hl, hk])
              (by simp [connectScan, hc, hl, hk]) ih
          · rcases ht : kElem.text with _ | t
            · exact scanInv_skip x rest (by simp [adoptable, hc, hl, hk, ht])
                (by simp [connectScan, hc, hl, hk, ht]) ih
            · by_cases hne : t = ""
              · exact scanInv_skip x rest (by simp [adoptable, hc, hl, hk, ht, hne])
                  (by simp [connectScan, hc, hl, hk, ht, hne]) ih
              · have hx : adoptable x = true := by simp [adoptable, hc, hl, hk, ht, hne]
                have hfind : (x :: rest).find? adoptable = some x := by
                  simp only [List.find?_cons, hx]
                have hscan : connectScan (x :: rest) = some (c, t, ty) := by
                  simp [connectScan, hc, hl, hk, ht, hne]
                constructor
                · intro h
                  rw [hfind] at h
                  exact Option.noConfusion h
                · intro e he
                  rw [hfind] at he
                  injection he with he
                  subst he
                  exact ⟨c, ty, t, hc, hl, by rw [hk, Option.some_bind, ht], hne, hscan⟩

/-- A `kids` element whose class matches but which carries no `k`
identifier child. -/
def kidsNoK : XML := XML.elem "kids" [("class", "km4315")] none []

/-- A later `kids` element with the same matching class and a proper
identifier. -/
def kidsWithK : XML :=
  XML.elem "kids" [("class", "km4315")] none [XML.elem "k" [] (some "42") []]

/-- A discovery response listing `kidsNoK` before `kidsWithK`. -/
def discoveryRoot : XML := XML.elem "device" [] none [kidsNoK, kidsWithK]

/-- A fresh, never-connected session. -/
def devFresh : Device := mkDevice "192.168.1.10" "0123456789AB" 57010 5

/-- C4 counterexample: in `discoveryRoot` the first sub-device element
whose class matches the lookup table is `kidsNoK`, which carries no
identifier text at all — yet `connect` succeeds and adopts `"42"`, the
identifier of the *second* matching element.  So `connect` does not
adopt "exactly the first sub-device element whose class attribute
matches". -/
theorem claim_C4_counterexample :
    firstClassMatchingKid (discoveryRoot.findallDesc "kids") = some kidsNoK ∧
    kidsNoK.findChild "k" = none ∧
    (connect devFresh (fun _ => some (some discoveryRoot))).2 = true ∧
    (connect devFresh (fun _ => some (some discoveryRoot))).1.device_id = some "42" :=
  ⟨rfl, rfl, rfl, rfl⟩

/-- Reduction of `connect` once the transport outcome is a parsed root. -/
theorem connect_of_parsed (dev : Device) (tr : Transport) (root : XML)
    (htr : tr (connectRequest dev) = some (some root)) :
    connect dev tr =
      match connectScan (root.findallDesc "kids") with
      | some cit => ({ dev with
          device_class := some cit.1
          device_id := some cit.2.1
          device_type := some cit.2.2 }, true)
      | none => (dev, false) := by
  unfold connect
  rw [htr]

/-- C4 amended: `connect` adopts exactly the first sub-device element
whose class matches the lookup table AND which carries a non-empty
identifier text in a direct `k` child (class-matching elements without
one are skipped); it records that element's class tag, identifier text
and mapped family together and returns success; with no such element,
on unparseable XML, or on transport failure it returns failure and the
identity fields remain unset. -/
theorem claim_C4_amended (dev : Device) (tr : Transport) (root : XML)
    (htr : tr (connectRequest dev) = some (some root)) :
    (∀ e, (root.findallDesc "kids").find? adoptable = some e →
      ∃ c ty t, e.getAttr "class" = some c ∧ DEVICE_CLASS_MAP.lookup c = some ty ∧
        (e.findChild "k").bind XML.text = some t ∧ t ≠ "" ∧
        connect dev tr = ({ dev with
          device_class := some c
          device_id := some t
          device_type := some ty }, true)) ∧
    ((root.findallDesc "kids").find? adoptable = none → connect dev tr = (dev, false)) ∧
    (∀ tr2 : Transport,
      tr2 (connectRequest dev) = none ∨ tr2 (connectRequest dev) = some none →
      connect dev tr2 = (dev, false)) := by
  have hspec := connectScan_spec (root.findallDesc "kids")
  refine ⟨?_, ?_, ?_⟩
  · intro e he
    obtain ⟨c, ty, t, h1, h2, h3, h4, h5⟩ := hspec.2 e he
    refine ⟨c, ty, t, h1, h2, h3, h4, ?_⟩
    rw [connect_of_parsed dev tr root htr, h5]
  · intro hnone
    rw [connect_of_parsed dev tr root htr, hspec.1 hnone]
  · intro tr2 h2
    unfold connect
    rcases h2 with h2 | h2 <;> rw [h2]

/-- The single-sub-device discovery response used for the C4 witness,
and the transport that returns it. -/
def rootW : XML := XML.elem "device" [] none [kidsWithK]

def trW : Transport := fun _ => some (some rootW)

/-- Witness for C4 amended: a discovery response whose only `kids`
element is adoptable. -/
theorem claim_C4_witness :
    trW (connectRequest devFresh) = some (some rootW) ∧
    (rootW.findallDesc "kids").find? adoptable = some kidsWithK ∧
    (∃ c ty t, kidsWithK.getAttr "class" = some c ∧
      DEVICE_CLASS_MAP.lookup c = some ty ∧
      (kidsWithK.findChild "k").bind XML.text = some t ∧ t ≠ "" ∧
      connect devFresh trW = ({ devFresh with
        device_class := some c
        device_id := some t
        device_type := some ty }, true)) :=
  ⟨rfl, rfl, (claim_C4_amended devFresh trW rootW rfl).1 kidsWithK rfl⟩
